import Mathlib

/-!
Verification of the pbxproj parser and object-graph operations of the
`xcodeproj` crate: a shallow embedding of the value-parser rules
(`src/parser/pbxproj/serialize.rs`), the configuration-list operations
(`src/pbxproj/object/build/list.rs`) and the project-document
construction, with proofs of the specified behaviours.
-/

/-- Modelled from the spec: `ObjectKind`, an enumeration of known Xcode
object type tags plus a catch-all `Unknown(tag)` variant (the `PBXObjectKind`
enum is not among the provided sources). Only a representative subset of the
known vocabulary is listed; the claims depend on the table/fallback shape,
not on the exact set of tags. -/
inductive PBXObjectKind where
  | pbxBuildFile
  | pbxFileReference
  | pbxGroup
  | pbxProject
  | pbxNativeTarget
  | xcBuildConfiguration
  | xcConfigurationList
  | unknown (tag : String)
deriving DecidableEq, Repr

/-- Modelled from the spec: the static lookup table mapping an `isa` tag text
to its known `ObjectKind` ("String-tag dynamic dispatch ... a static table
mapping tag → constructor", §9). -/
def kindTable : List (String × PBXObjectKind) :=
  [ ("PBXBuildFile", .pbxBuildFile)
  , ("PBXFileReference", .pbxFileReference)
  , ("PBXGroup", .pbxGroup)
  , ("PBXProject", .pbxProject)
  , ("PBXNativeTarget", .pbxNativeTarget)
  , ("XCBuildConfiguration", .xcBuildConfiguration)
  , ("XCConfigurationList", .xcConfigurationList) ]

/-- Modelled from the spec: `PBXObjectKind::from(&str)` — look the tag up in
the static table, falling back to `Unknown` carrying the raw tag. -/
def PBXObjectKind.fromString (s : String) : PBXObjectKind :=
  match kindTable.find? (fun p => p.1 == s) with
  | some p => p.2
  | none => .unknown s

/-- The tags of the known vocabulary. -/
def knownKindTags : List String := kindTable.map Prod.fst

/-- Whether a kind is the `Unknown` fallback. -/
def PBXObjectKind.isUnknown : PBXObjectKind → Bool
  | .unknown _ => true
  | _ => false

/-- Modelled from the spec: `PBXValue`, the generic self-describing value
(tagged union over string / object map / array / integer / bool / type tag,
§3). The `Number` payload is the spec's "integer"; the object payload is the
underlying key/value pair list of `PBXHashMap`. -/
inductive PBXValue where
  | string (s : String)
  | object (m : List (String × PBXValue))
  | array (a : List PBXValue)
  | number (n : Int)
  | bool (b : Bool)
  | kind (k : PBXObjectKind)
deriving Repr

/-- Modelled from the spec: `PBXHashMap`, the key-unique map of field keys to
values, embedded as an association list (first binding wins on lookup, which
matches hash-map overwrite semantics observably). -/
abbrev PBXHashMap := List (String × PBXValue)

/-- Lookup in a `PBXHashMap` (`HashMap::get`). -/
def PBXHashMap.get (m : PBXHashMap) (k : String) : Option PBXValue :=
  (m.find? (fun p => p.1 == k)).map Prod.snd

/-- Removal from a `PBXHashMap` (`HashMap::remove`, keeping the rest). -/
def PBXHashMap.remove (m : PBXHashMap) (k : String) : PBXHashMap :=
  m.filter (fun p => p.1 != k)

/-- Errors of the embedding, per §7 of the spec: parse failures carry the
offending text, mapper failures the offending field. -/
inductive PBXErr where
  | invalidBoolLiteral (text : String)
  | invalidNumberLiteral (text : String)
  | missingField (key : String)
  | typeMismatch (key : String)
deriving DecidableEq, Repr

/-- Embeds `PBXProjectParser::string`: `input.as_str().replace("\"", "")`.
Replacing every occurrence of the single-character pattern `"` by the empty
string deletes exactly the quote characters, i.e. filters them out of the
character sequence. -/
def PBXProjectParser.string (s : String) : Except PBXErr PBXValue :=
  .ok (.string ⟨s.data.filter (fun c => c != '"')⟩)

/-- Embeds `PBXProjectParser::kind`: `PBXObjectKind::from(input.as_str())`
wrapped in `PBXValue::Kind`; always succeeds. -/
def PBXProjectParser.kind (s : String) : Except PBXErr PBXValue :=
  .ok (.kind (PBXObjectKind.fromString s))

/-- Embeds `PBXProjectParser::ident`: the token text as a `String` value. -/
def PBXProjectParser.ident (s : String) : Except PBXErr PBXValue :=
  .ok (.string s)

/-- Embeds `PBXProjectParser::uuid`: the token text as a `String` value. -/
def PBXProjectParser.uuid (s : String) : Except PBXErr PBXValue :=
  .ok (.string s)

/-- Base-ten value of a digit sequence (the numeric token's value). -/
def digitsVal (cs : List Char) : Nat :=
  cs.foldl (fun a c => 10 * a + (c.toNat - 48)) 0

/-- Modelled from the spec: Rust's `str::parse` into the integer payload of
`Number` (the spec specifies an integer, §3): an optional sign followed by at
least one decimal digit; anything else fails. -/
def parseInt (s : String) : Option Int :=
  match s.data with
  | [] => none
  | '-' :: cs =>
    if cs ≠ [] ∧ cs.all Char.isDigit then some (-(digitsVal cs : Int)) else none
  | '+' :: cs =>
    if cs ≠ [] ∧ cs.all Char.isDigit then some (digitsVal cs : Int) else none
  | cs =>
    if cs.all Char.isDigit then some (digitsVal cs : Int) else none

/-- Embeds `PBXProjectParser::number`: a token containing a decimal point
(`value.contains(".")`, expressed over the character sequence) is kept as
`String` of the original text; otherwise it is parsed as an integer, a parse
error being reported with the offending text. -/
def PBXProjectParser.number (s : String) : Except PBXErr PBXValue :=
  if s.data.contains '.' then .ok (.string s)
  else
    match parseInt s with
    | some n => .ok (.number n)
    | none => .error (.invalidNumberLiteral s)

/-- Embeds `PBXProjectParser::bool`: exactly `YES`/`NO` map to true/false,
anything else is a failure quoting the offending text. -/
def PBXProjectParser.bool (s : String) : Except PBXErr PBXValue :=
  match s with
  | "YES" => .ok (.bool true)
  | "NO" => .ok (.bool false)
  | value => .error (.invalidBoolLiteral value)

/-- Theorem for claim C5 is stated over this rule below; first the key rule.
Lower-snake-case conversion, modelling the `convert_case` crate's
`to_case(Case::Snake)` on the identifier spellings that occur as pbxproj
keys: words are split at an underscore/hyphen/space, at a lower-to-upper
boundary, and at an acronym boundary (upper-upper-lower); the words are
lowercased and joined with underscores. -/
def splitWordsAux : List Char → List Char → List (List Char)
  | [], acc => [acc.reverse]
  | c :: rest, acc =>
    if c = '_' ∨ c = '-' ∨ c = ' ' then
      acc.reverse :: splitWordsAux rest []
    else
      match acc with
      | [] => splitWordsAux rest [c]
      | p :: _ =>
        if (p.isLower && c.isUpper)
            || (p.isUpper && c.isUpper
                && (match rest with | n :: _ => n.isLower | [] => false)) then
          acc.reverse :: splitWordsAux rest [c]
        else
          splitWordsAux rest (c :: acc)

/-- Lower-snake-case conversion (see `splitWordsAux`). -/
def toSnake (s : String) : String :=
  String.intercalate "_"
    (((splitWordsAux s.data []).filter (fun w => !w.isEmpty)).map
      (fun w => ⟨w.map Char.toLower⟩))

/-- The parse-tree child of a `key` node: per the grammar a key is either a
generic identifier token or an identifier-shaped (reference/uuid) token; the
code branches on `inner.as_rule() == Rule::ident`. -/
inductive KeyNode where
  | identTok (s : String)
  | uuidTok (s : String)

/-- Embeds `PBXProjectParser::key`: a generic identifier key is converted
with `to_case(Case::Snake)`; any other (identifier-shaped) key is kept
verbatim. -/
def PBXProjectParser.key : KeyNode → String
  | .identTok s => toSnake s
  | .uuidTok s => s

/-- Claim C5: the boolean rule succeeds exactly on `YES` and `NO`, mapping
them to true and false respectively; any other token yields a failure that
quotes the offending text. -/
theorem bool_rule_yes_no_only (s : String) :
    (PBXProjectParser.bool s = .ok (.bool true) ↔ s = "YES") ∧
    (PBXProjectParser.bool s = .ok (.bool false) ↔ s = "NO") ∧
    (s ≠ "YES" → s ≠ "NO" →
      PBXProjectParser.bool s = .error (.invalidBoolLiteral s)) := by
  unfold PBXProjectParser.bool
  refine ⟨?_, ?_, ?_⟩
  · constructor
    · intro h
      split at h <;> simp_all
    · rintro rfl; rfl
  · constructor
    · intro h
      split at h <;> simp_all
    · rintro rfl; rfl
  · intro h1 h2
    split <;> simp_all

/-- Witness for C5 at concrete tokens: `Yes` (wrong case) is rejected with
the offending text quoted. -/
theorem bool_rule_yes_no_only_witness :
    PBXProjectParser.bool "Yes" = .error (.invalidBoolLiteral "Yes") :=
  (bool_rule_yes_no_only "Yes").2.2 (by decide) (by decide)

/-- Claim C6: the kind rule always succeeds; a tag in the known vocabulary
maps to a known `ObjectKind`, and any other tag maps to the `Unknown`
fallback carrying the raw tag text — never a parse failure. -/
theorem kind_rule_total_lookup (s : String) :
    PBXProjectParser.kind s = .ok (.kind (PBXObjectKind.fromString s)) ∧
    (s ∈ knownKindTags → (PBXObjectKind.fromString s).isUnknown = false) ∧
    (s ∉ knownKindTags → PBXObjectKind.fromString s = .unknown s) := by
  refine ⟨rfl, ?_, ?_⟩
  · intro hs
    simp only [knownKindTags, kindTable, List.map_cons, List.map_nil,
      List.mem_cons, List.not_mem_nil, or_false] at hs
    rcases hs with rfl | rfl | rfl | rfl | rfl | rfl | rfl <;> rfl
  · intro hs
    unfold PBXObjectKind.fromString
    cases hfind : kindTable.find? (fun p => p.1 == s) with
    | none => rfl
    | some p =>
      exfalso
      apply hs
      have hp := List.mem_of_find?_eq_some hfind
      have he := List.find?_some hfind
      simp only [beq_iff_eq] at he
      exact List.mem_map.mpr ⟨p, hp, he⟩

/-- Witness for C6 at a concrete unrecognized tag: parsing succeeds with the
`Unknown` fallback carrying the raw text. -/
theorem kind_rule_total_lookup_witness :
    PBXProjectParser.kind "PBXFancyNewKind"
      = .ok (.kind (.unknown "PBXFancyNewKind")) := by
  have h := kind_rule_total_lookup "PBXFancyNewKind"
  rw [h.1, h.2.2 (by decide)]

/-- Claim C2 counterexample: on the quoted-string token `"a\"b"` (enclosing
quotes around the five characters `a\"b`), the string rule deletes the
embedded quote character instead of preserving it: the result is `a\b`, not
the between-quotes text `a\"b`. -/
theorem string_rule_embedded_quote_cex :
    PBXProjectParser.string "\"a\\\"b\"" = .ok (.string "a\\b") ∧
    PBXProjectParser.string "\"a\\\"b\"" ≠ .ok (.string "a\\\"b") := by
  refine ⟨rfl, ?_⟩
  intro h
  rw [show PBXProjectParser.string "\"a\\\"b\""
        = Except.ok (PBXValue.string "a\\b") from rfl] at h
  have h1 := Except.ok.inj h
  have h2 := PBXValue.string.inj h1
  exact absurd h2 (by decide)

/-- Claim C2 as amended: the string rule removes every quote character of the
token — the enclosing quotes and any embedded quote characters alike — and
preserves all other characters in order; in particular, when the text between
the enclosing quotes contains no quote character, the result is exactly that
text with the enclosing quotes stripped. -/
theorem string_rule_removes_all_quotes (s inner : String) :
    PBXProjectParser.string s
      = .ok (.string ⟨s.data.filter (fun c => c != '"')⟩) ∧
    (s = "\"" ++ inner ++ "\"" → (∀ c ∈ inner.data, c ≠ '"') →
      PBXProjectParser.string s = .ok (.string inner)) := by
  refine ⟨rfl, ?_⟩
  rintro rfl hq
  unfold PBXProjectParser.string
  congr 2
  rw [String.data_append, String.data_append]
  rw [show ("\"" : String).data = ['"'] from rfl]
  rw [List.filter_append, List.filter_append]
  rw [show List.filter (fun c => c != '"') ['"'] = [] from rfl]
  rw [List.filter_eq_self.mpr (fun c hc => by simpa using hq c hc)]
  simp

/-- Witness for C2 (amended) at a concrete token. -/
theorem string_rule_removes_all_quotes_witness :
    PBXProjectParser.string "\"Debug\"" = .ok (.string "Debug") :=
  (string_rule_removes_all_quotes "\"Debug\"" "Debug").2 rfl (by decide)

/-- Claim C3: a numeric token containing a decimal point parses as
`String` of the original text, unchanged; a token without a decimal point
consisting of decimal digits parses as the exact integer value of the
token. -/
theorem number_rule_integer_or_string (s : String) :
    (s.data.contains '.' = true → PBXProjectParser.number s = .ok (.string s)) ∧
    (s.data.contains '.' = false → s.data ≠ [] → s.data.all Char.isDigit = true →
      PBXProjectParser.number s = .ok (.number (digitsVal s.data))) := by
  constructor
  · intro h
    unfold PBXProjectParser.number
    rw [if_pos h]
  · intro h hne hdig
    have hp : parseInt s = some ((digitsVal s.data : Nat) : Int) := by
      unfold parseInt
      split
      · next heq => exact absurd heq hne
      · next cs heq =>
        exfalso
        rw [heq, List.all_cons] at hdig
        simp at hdig
      · next cs heq =>
        exfalso
        rw [heq, List.all_cons] at hdig
        simp at hdig
      · simp [hdig]
    unfold PBXProjectParser.number
    rw [if_neg (by rw [h]; simp), hp]

/-- Witness for C3 at concrete tokens: an integer token and a
decimal-point token. -/
theorem number_rule_integer_or_string_witness :
    PBXProjectParser.number "46" = .ok (.number 46) ∧
    PBXProjectParser.number "9.3" = .ok (.string "9.3") := by
  constructor
  · have h := (number_rule_integer_or_string "46").2 (by decide) (by decide)
      (by decide)
    simpa using h
  · exact (number_rule_integer_or_string "9.3").1 (by decide)

/-- Claim C4: a generic-identifier key is normalized to its lower-snake-case
conversion, while an identifier-shaped key (an object identifier used as a
map key) is preserved verbatim; concretely, `fileRef` normalizes to
`file_ref` and a 24-character identifier key passes through unchanged. -/
theorem key_rule_snake_or_verbatim (s t : String) :
    PBXProjectParser.key (.identTok s) = toSnake s ∧
    PBXProjectParser.key (.uuidTok t) = t ∧
    PBXProjectParser.key (.identTok "fileRef") = "file_ref" ∧
    PBXProjectParser.key (.identTok "defaultConfigurationIsVisible")
      = "default_configuration_is_visible" ∧
    PBXProjectParser.key (.uuidTok "0EC07ACE89150EC90442393B")
      = "0EC07ACE89150EC90442393B" :=
  ⟨rfl, rfl, by decide, by decide, rfl⟩

/-- Modelled from the spec: `XCBuildConfiguration` (struct not among the
provided sources); its fields follow the `new(name, build_settings,
base_configuration_reference)` constructor call in `list.rs`. -/
structure XCBuildConfiguration where
  name : String
  build_settings : PBXHashMap
  base_configuration_reference : Option String
deriving Repr

/-- Embeds `XCConfigurationList` from `src/pbxproj/object/build/list.rs`. -/
structure XCConfigurationList where
  build_configuration_references : List String
  default_configuration_is_visible : Bool
  default_configuration_name : Option String
deriving Repr

/-- Modelled from the spec: `PBXObject`, the DomainObject sum type with one
variant per ObjectKind (enum not among the provided sources). The claims
exercise only the build-configuration variant; every other kind is abridged
into a placeholder carrying its kind and raw fields. -/
inductive PBXObject where
  | xcBuildConfiguration (c : XCBuildConfiguration)
  | otherObject (k : PBXObjectKind) (fields : PBXHashMap)
deriving Repr

/-- Modelled from the spec: the enum accessor
`PBXObject::as_xc_build_configuration`, `Some` exactly on the
build-configuration variant. -/
def PBXObject.as_xc_build_configuration :
    PBXObject → Option XCBuildConfiguration
  | .xcBuildConfiguration c => some c
  | _ => none

/-- Modelled from the spec: `PBXRootObject`, the Object Graph owning the
identifier → DomainObject mapping (§4.4), embedded as an association list;
`insert` prepends and `get` returns the most recent binding, which is
observably the hash-map overwrite semantics. -/
structure PBXRootObject where
  objects : List (String × PBXObject)
deriving Repr

/-- Graph lookup: absent identifiers yield `none`, never a failure. -/
def PBXRootObject.get (g : PBXRootObject) (k : String) : Option PBXObject :=
  (g.objects.find? (fun p => p.1 == k)).map Prod.snd

/-- Graph insertion. -/
def PBXRootObject.insert (g : PBXRootObject) (k : String) (v : PBXObject) :
    PBXRootObject :=
  ⟨(k, v) :: g.objects⟩

/-- Embeds `XCConfigurationList::get_build_configurations`: map each member
reference through `data.get(r)?.as_xc_build_configuration()?` and flatten,
silently dropping references that do not resolve to a build
configuration. -/
def XCConfigurationList.get_build_configurations
    (self : XCConfigurationList) (data : PBXRootObject) :
    List XCBuildConfiguration :=
  (self.build_configuration_references.map
      (fun r => (data.get r).bind PBXObject.as_xc_build_configuration)).filterMap
    id

/-- Embeds `XCConfigurationList::add_default_configurations`. The two
identifiers produced by `uuid::Uuid::new_v4()` are passed in as parameters
`debug_id`/`release_id` (the generator is nondeterministic; per the spec the
identifiers are fresh and globally unique, which the theorems take as
hypotheses). The body mirrors the source: insert the Debug configuration,
record its id, insert the Release configuration, record its id, then extend
the member references with the recorded ids. -/
def XCConfigurationList.add_default_configurations
    (self : XCConfigurationList) (data : PBXRootObject)
    (debug_id release_id : String) : XCConfigurationList × PBXRootObject :=
  let configurations : List String := []
  let debug : XCBuildConfiguration := ⟨"Debug", [], none⟩
  let data := data.insert debug_id (.xcBuildConfiguration debug)
  let configurations := configurations ++ [debug_id]
  let release : XCBuildConfiguration := ⟨"Release", [], none⟩
  let data := data.insert release_id (.xcBuildConfiguration release)
  let configurations := configurations ++ [release_id]
  ({ self with
      build_configuration_references :=
        self.build_configuration_references ++ configurations },
    data)

/-- Claim C9: `get_build_configurations` keeps exactly the member references
that resolve, through the Graph, to an object of build-configuration kind —
in the order of the reference list — omitting both identifiers absent from
the Graph and identifiers bound to an object of a different kind. -/
theorem get_build_configurations_filter_map
    (l : XCConfigurationList) (g : PBXRootObject) :
    l.get_build_configurations g =
      l.build_configuration_references.filterMap (fun r =>
        match g.get r with
        | some (.xcBuildConfiguration c) => some c
        | some (.otherObject _ _) => none
        | none => none) := by
  unfold XCConfigurationList.get_build_configurations
  rw [List.filterMap_map]
  congr 1
  funext r
  simp only [Function.comp, id]
  cases hg : g.get r with
  | none => rfl
  | some o => cases o <;> rfl

/-- Claim C7: a configuration list whose member references hold one
identifier bound to a build configuration in the Graph and one identifier
absent from the Graph resolves to the one-element list holding the present
configuration, the dangling reference being silently omitted. -/
theorem get_build_configurations_skips_dangling
    (l : XCConfigurationList) (g : PBXRootObject) (a b : String)
    (c : XCBuildConfiguration)
    (href : l.build_configuration_references = [a, b] ∨
        l.build_configuration_references = [b, a])
    (ha : g.get a = some (.xcBuildConfiguration c))
    (hb : g.get b = none) :
    l.get_build_configurations g = [c] := by
  unfold XCConfigurationList.get_build_configurations
  rcases href with h | h <;>
    rw [h] <;>
    simp [ha, hb, PBXObject.as_xc_build_configuration]

/-- Witness for C7 at a concrete graph and list: reference `AAA` is bound to
a Debug configuration, reference `BBB` is dangling. -/
theorem get_build_configurations_skips_dangling_witness :
    XCConfigurationList.get_build_configurations
        ⟨["AAA", "BBB"], false, none⟩
        ⟨[("AAA", .xcBuildConfiguration ⟨"Debug", [], none⟩)]⟩
      = [⟨"Debug", [], none⟩] :=
  get_build_configurations_skips_dangling
    ⟨["AAA", "BBB"], false, none⟩
    ⟨[("AAA", .xcBuildConfiguration ⟨"Debug", [], none⟩)]⟩
    "AAA" "BBB" ⟨"Debug", [], none⟩ (Or.inl rfl) rfl rfl

/-- Claim C1: on a configuration list with no member references, and with
two fresh distinct identifiers for the generated objects,
`add_default_configurations` appends exactly the two identifiers, Debug's
before Release's; the Graph gains exactly the two corresponding
build-configuration entries named `Debug` and `Release` (all prior entries
untouched), and both appended identifiers resolve in the resulting Graph, so
neither is dangling. -/
theorem add_default_configurations_two_entries
    (l : XCConfigurationList) (g : PBXRootObject) (d r : String)
    (h0 : l.build_configuration_references = [])
    (hdr : d ≠ r) (_hd : g.get d = none) (_hr : g.get r = none) :
    (l.add_default_configurations g d r).1.build_configuration_references
        = [d, r] ∧
    (l.add_default_configurations g d r).2.objects
        = (r, .xcBuildConfiguration ⟨"Release", [], none⟩)
            :: (d, .xcBuildConfiguration ⟨"Debug", [], none⟩) :: g.objects ∧
    (l.add_default_configurations g d r).2.get d
        = some (.xcBuildConfiguration ⟨"Debug", [], none⟩) ∧
    (l.add_default_configurations g d r).2.get r
        = some (.xcBuildConfiguration ⟨"Release", [], none⟩) := by
  have hstep : l.add_default_configurations g d r =
      ({ l with
          build_configuration_references :=
            l.build_configuration_references ++ [d, r] },
        ⟨(r, .xcBuildConfiguration ⟨"Release", [], none⟩)
          :: (d, .xcBuildConfiguration ⟨"Debug", [], none⟩) :: g.objects⟩) :=
    rfl
  have hrd : (r == d) = false := beq_eq_false_iff_ne.mpr fun h => hdr h.symm
  refine ⟨?_, ?_, ?_, ?_⟩
  · rw [hstep, h0]
    rfl
  · rw [hstep]
  · rw [hstep]
    simp [PBXRootObject.get, List.find?, hrd]
  · rw [hstep]
    simp [PBXRootObject.get, List.find?]

/-- Witness for C1 at a concrete empty list, empty graph and two concrete
fresh identifiers. -/
theorem add_default_configurations_two_entries_witness :
    (XCConfigurationList.add_default_configurations ⟨[], true, none⟩ ⟨[]⟩
        "D0" "R0").1.build_configuration_references = ["D0", "R0"] ∧
    (XCConfigurationList.add_default_configurations ⟨[], true, none⟩ ⟨[]⟩
        "D0" "R0").2.objects
      = [("R0", .xcBuildConfiguration ⟨"Release", [], none⟩),
         ("D0", .xcBuildConfiguration ⟨"Debug", [], none⟩)] ∧
    (XCConfigurationList.add_default_configurations ⟨[], true, none⟩ ⟨[]⟩
        "D0" "R0").2.get "D0"
      = some (.xcBuildConfiguration ⟨"Debug", [], none⟩) ∧
    (XCConfigurationList.add_default_configurations ⟨[], true, none⟩ ⟨[]⟩
        "D0" "R0").2.get "R0"
      = some (.xcBuildConfiguration ⟨"Release", [], none⟩) :=
  add_default_configurations_two_entries ⟨[], true, none⟩ ⟨[]⟩ "D0" "R0" rfl
    (by decide) rfl rfl

/-- Modelled from the spec: the consuming accessor
`PBXHashMap::try_remove_number` (§4.3): on success it yields the numeric
value and removes the key; an absent key is a `MissingField` error and a
wrong-shaped value a `TypeMismatch` error, each naming the key. -/
def PBXHashMap.try_remove_number (m : PBXHashMap) (k : String) :
    Except PBXErr (Int × PBXHashMap) :=
  match PBXHashMap.get m k with
  | some (.number n) => .ok (n, PBXHashMap.remove m k)
  | some _ => .error (.typeMismatch k)
  | none => .error (.missingField k)

/-- Modelled from the spec: the consuming accessor
`PBXHashMap::try_remove_string` (§4.3). -/
def PBXHashMap.try_remove_string (m : PBXHashMap) (k : String) :
    Except PBXErr (String × PBXHashMap) :=
  match PBXHashMap.get m k with
  | some (.string s) => .ok (s, PBXHashMap.remove m k)
  | some _ => .error (.typeMismatch k)
  | none => .error (.missingField k)

/-- Modelled from the spec: the consuming accessor
`PBXHashMap::try_remove_object` (§4.3). -/
def PBXHashMap.try_remove_object (m : PBXHashMap) (k : String) :
    Except PBXErr (PBXHashMap × PBXHashMap) :=
  match PBXHashMap.get m k with
  | some (.object o) => .ok (o, PBXHashMap.remove m k)
  | some _ => .error (.typeMismatch k)
  | none => .error (.missingField k)

/-- Embeds Rust's `as u8` cast on the parsed integer: truncation to the low
eight bits (for a nonnegative value, reduction modulo 2^8; Lean's `Int.emod`
by 256 is nonnegative, matching the two's-complement truncation). -/
def asU8 (n : Int) : Nat := (n % 256).toNat

/-- Embeds `PBXProjectData` (struct fields per the `Self::new` call in
`serialize.rs` and §3 of the spec): the two versions are stored as eight-bit
integers (`u8`). -/
structure PBXProjectData where
  archive_version : Nat
  object_version : Nat
  classes : PBXHashMap
  objects : PBXHashMap
  root_object_reference : String
deriving Repr

/-- Embeds the `classes` extraction line of `serialize.rs`:
`object.try_remove_object("classes").unwrap_or_default()` — the classes map
(defaulting to empty on any failure) together with the possibly-consumed
rest of the top-level map. -/
def classesStep (m : PBXHashMap) : PBXHashMap × PBXHashMap :=
  match PBXHashMap.try_remove_object m "classes" with
  | .ok p => p
  | .error _ => ([], m)

/-- Embeds the field-extraction stage of `TryFrom<&str> for PBXProjectData`
(`serialize.rs` lines 130–142), taking the already-parsed top-level object
map: remove `archive_version` and `object_version` as numbers and truncate
each with `as u8`; remove `classes` as an object, defaulting to the empty map
on failure (`unwrap_or_default`); remove the required `root_object` string
and `objects` object. Each `?` of the source is a match propagating the
error, so any failing required step aborts the whole construction and no
partially populated value is ever produced. -/
def PBXProjectData.ofTopLevelObject (m : PBXHashMap) :
    Except PBXErr PBXProjectData :=
  match PBXHashMap.try_remove_number m "archive_version" with
  | .error e => .error e
  | .ok (av, m) =>
    match PBXHashMap.try_remove_number m "object_version" with
    | .error e => .error e
    | .ok (ov, m) =>
      let c := classesStep m
      match PBXHashMap.try_remove_string c.2 "root_object" with
      | .error e => .error e
      | .ok (root, m) =>
        match PBXHashMap.try_remove_object m "objects" with
        | .error e => .error e
        | .ok (objs, _) => .ok ⟨asU8 av, asU8 ov, c.1, objs, root⟩

/-- Removing one key of a `PBXHashMap` leaves lookups of every other key
unchanged. -/
theorem PBXHashMap.get_remove_ne (m : PBXHashMap) (k k' : String)
    (h : k' ≠ k) :
    PBXHashMap.get (PBXHashMap.remove m k) k' = PBXHashMap.get m k' := by
  induction m with
  | nil => rfl
  | cons p t ih =>
    simp only [PBXHashMap.remove, PBXHashMap.get, List.filter_cons] at *
    by_cases hp : p.1 = k
    · have h1 : (p.1 != k) = false := by simp [hp]
      have h2 : (p.1 == k') = false := by simp [hp, Ne.symm h]
      simp only [h1, Bool.false_eq_true, if_false]
      rw [ih]
      simp [h2]
    · have h1 : (p.1 != k) = true := by simp [hp]
      simp only [h1, if_true]
      by_cases hq : p.1 = k'
      · simp [hq]
      · have h2 : (p.1 == k') = false := by simp [hq]
        rw [List.find?_cons, List.find?_cons, h2]
        simpa using ih

/-- The `classes` step never disturbs lookups of other keys in the rest of
the map it returns. -/
theorem classesStep_get (m : PBXHashMap) (k : String) (hk : k ≠ "classes") :
    PBXHashMap.get (classesStep m).2 k = PBXHashMap.get m k := by
  unfold classesStep PBXHashMap.try_remove_object
  cases hg : PBXHashMap.get m "classes" with
  | none => rfl
  | some v =>
    rcases v with s | o | a | n | b | kk
    · rfl
    · exact PBXHashMap.get_remove_ne m "classes" k hk
    · rfl
    · rfl
    · rfl
    · rfl

/-- Claim C8: a top-level document object carrying numeric `archive_version`
and `object_version` fields but no `root_object` field fails construction
with `MissingField` naming `root_object`; the construction returns this
error, not any (partially populated) document value — the `Except` result is
all-or-nothing. -/
theorem project_data_missing_root_object (m : PBXHashMap)
    (hav : ∃ n, PBXHashMap.get m "archive_version" = some (.number n))
    (hov : ∃ n, PBXHashMap.get m "object_version" = some (.number n))
    (hroot : PBXHashMap.get m "root_object" = none) :
    PBXProjectData.ofTopLevelObject m
      = .error (.missingField "root_object") := by
  obtain ⟨av, hav⟩ := hav
  obtain ⟨ov, hov⟩ := hov
  have h1 : PBXHashMap.try_remove_number m "archive_version"
      = .ok (av, PBXHashMap.remove m "archive_version") := by
    unfold PBXHashMap.try_remove_number
    rw [hav]
  have h2 : PBXHashMap.try_remove_number
        (PBXHashMap.remove m "archive_version") "object_version"
      = .ok (ov, PBXHashMap.remove (PBXHashMap.remove m "archive_version")
          "object_version") := by
    unfold PBXHashMap.try_remove_number
    rw [PBXHashMap.get_remove_ne _ _ _ (by decide), hov]
  have h3 : PBXHashMap.try_remove_string
        (classesStep (PBXHashMap.remove
          (PBXHashMap.remove m "archive_version") "object_version")).2
        "root_object"
      = .error (.missingField "root_object") := by
    unfold PBXHashMap.try_remove_string
    rw [classesStep_get _ _ (by decide),
      PBXHashMap.get_remove_ne _ _ _ (by decide),
      PBXHashMap.get_remove_ne _ _ _ (by decide), hroot]
  simp only [PBXProjectData.ofTopLevelObject, h1, h2, h3]

/-- Witness for C8 at a concrete top-level map that has every required field
except `root_object`. -/
theorem project_data_missing_root_object_witness :
    PBXProjectData.ofTopLevelObject
        [("archive_version", .number 1), ("object_version", .number 46),
         ("objects", .object [])]
      = .error (.missingField "root_object") :=
  project_data_missing_root_object
    [("archive_version", .number 1), ("object_version", .number 46),
     ("objects", .object [])]
    ⟨1, rfl⟩ ⟨46, rfl⟩ rfl

/-- Claim C10: the constructed document stores `archive_version` and
`object_version` through the `as u8` cast, i.e. as eight-bit integers:
whenever construction succeeds, each stored version equals the parsed
integer reduced modulo 2^8, and a parsed value of 256 or more is never
stored intact. -/
theorem project_data_version_mod_256 (m : PBXHashMap) (av ov : Int)
    (d : PBXProjectData)
    (hav : PBXHashMap.get m "archive_version" = some (.number av))
    (hov : PBXHashMap.get m "object_version" = some (.number ov))
    (hok : PBXProjectData.ofTopLevelObject m = .ok d) :
    (d.archive_version : Int) = av % 256 ∧
    (d.object_version : Int) = ov % 256 ∧
    (256 ≤ av → (d.archive_version : Int) ≠ av) ∧
    (256 ≤ ov → (d.object_version : Int) ≠ ov) := by
  have h1 : PBXHashMap.try_remove_number m "archive_version"
      = .ok (av, PBXHashMap.remove m "archive_version") := by
    unfold PBXHashMap.try_remove_number
    rw [hav]
  have h2 : PBXHashMap.try_remove_number
        (PBXHashMap.remove m "archive_version") "object_version"
      = .ok (ov, PBXHashMap.remove (PBXHashMap.remove m "archive_version")
          "object_version") := by
    unfold PBXHashMap.try_remove_number
    rw [PBXHashMap.get_remove_ne _ _ _ (by decide), hov]
  simp only [PBXProjectData.ofTopLevelObject, h1, h2] at hok
  rcases hstr : PBXHashMap.try_remove_string
      (classesStep (PBXHashMap.remove (PBXHashMap.remove m "archive_version")
        "object_version")).2 "root_object" with e | p
  · rw [hstr] at hok
    exact absurd hok (by simp)
  · rw [hstr] at hok
    obtain ⟨root, m3⟩ := p
    dsimp only at hok
    rcases hobj : PBXHashMap.try_remove_object m3 "objects" with e | q
    · rw [hobj] at hok
      exact absurd hok (by simp)
    · rw [hobj] at hok
      obtain ⟨objs, mrest⟩ := q
      dsimp only at hok
      simp only [Except.ok.injEq] at hok
      subst hok
      have hmod : ∀ n : Int, ((asU8 n : Nat) : Int) = n % 256 := by
        intro n
        unfold asU8
        exact Int.toNat_of_nonneg (Int.emod_nonneg n (by norm_num))
      have hlt : ∀ n : Int, n % 256 < 256 :=
        fun n => Int.emod_lt_of_pos n (by norm_num)
      refine ⟨hmod av, hmod ov, ?_, ?_⟩
      · intro h256
        rw [hmod av]
        have := hlt av
        omega
      · intro h256
        rw [hmod ov]
        have := hlt ov
        omega

/-- Witness for C10 at a concrete top-level map with `archive_version` 300
and `object_version` 1000: the stored values are 44 and 232. -/
theorem project_data_version_mod_256_witness :
    (((⟨44, 232, [], [], "ROOT"⟩ : PBXProjectData).archive_version : Int)
        = 300 % 256) ∧
    (((⟨44, 232, [], [], "ROOT"⟩ : PBXProjectData).object_version : Int)
        = 1000 % 256) ∧
    (256 ≤ (300 : Int) →
      ((⟨44, 232, [], [], "ROOT"⟩ : PBXProjectData).archive_version : Int)
        ≠ 300) ∧
    (256 ≤ (1000 : Int) →
      ((⟨44, 232, [], [], "ROOT"⟩ : PBXProjectData).object_version : Int)
        ≠ 1000) :=
  project_data_version_mod_256
    [("archive_version", .number 300), ("object_version", .number 1000),
     ("root_object", .string "ROOT"), ("objects", .object [])]
    300 1000 ⟨44, 232, [], [], "ROOT"⟩ rfl rfl rfl
